import Mathlib

/-!
Verification development for the octoling runner-autoscaling controller.

The definitions below are a shallow embedding of the Rust sources:
  - `src/config.rs`     — configuration records and the two pure lookups;
  - `src/manager.rs`    — the runner lifecycle controller;
  - `src/api/github.rs` — the webhook dispatcher;
  - `src/provider/*`    — the provider interface and the LXC backend.

External effects (the container backend, the forge HTTP API, the HMAC
primitive) are modelled as explicit environments or function parameters;
everything the controller itself computes is translated directly.
-/

set_option autoImplicit false

namespace Octoling

/-! ## Configuration records (src/config.rs lines 20-89) -/

/-- Embeds `GithubConfig` (src/config.rs lines 20-27). -/
structure GithubConfig where
  owner : String
  repository : String
  api_token : String
  webhook_secret : String
  enabled : Bool
deriving DecidableEq, Repr

/-- Embeds `ProviderConfig` (src/config.rs lines 73-80). -/
structure ProviderConfig where
  name : String
  id : String
  provider_type : String
  enabled : Bool
deriving DecidableEq, Repr

/-- Embeds `ImageConfig` (src/config.rs lines 82-89). -/
structure ImageConfig where
  name : String
  id : String
  provider_id : String
  enabled : Bool
  labels : List String
deriving DecidableEq, Repr

/-- Embeds `GithubConfig::get_repo_url` (src/config.rs lines 40-42). -/
def GithubConfig.get_repo_url (c : GithubConfig) : String :=
  "https://github.com/" ++ c.owner ++ "/" ++ c.repository ++ "/"

/-- Embeds `get_github_config_by_owner_and_repo` (src/config.rs lines
126-135): linear scan of the configured github entries, first entry whose
`owner` and `repository` both match.  The global list
`GLOBAL_GITHUB_CONFIG` is passed explicitly. -/
def get_github_config_by_owner_and_repo :
    List GithubConfig → String → String → Option GithubConfig
  | [], _, _ => none
  | c :: rest, owner, repository =>
    if c.owner = owner ∧ c.repository = repository then some c
    else get_github_config_by_owner_and_repo rest owner repository

/-- Embeds `get_image_config_by_label` (src/config.rs lines 137-147):
outer loop over the configured image entries in order, inner loop over an
entry's `labels`; the first entry one of whose labels equals the query is
returned.  The global list `GLOBAL_IMAGE_CONFIG` is passed explicitly. -/
def get_image_config_by_label :
    List ImageConfig → String → Option ImageConfig
  | [], _ => none
  | c :: rest, label =>
    if label ∈ c.labels then some c
    else get_image_config_by_label rest label

/-! ## Error types (src/provider/mod.rs lines 9-19, src/manager.rs lines 8-14) -/

/-- Embeds `ProviderError` (src/provider/mod.rs lines 9-19). -/
inductive ProviderError where
  | InvalidImage
  | RunnerCreationFailed
  | RunnerNotFound
  | RunnerDestructionFailed
  | RunnerStartFailed
  | RunnerStopFailed
  | RunnerRunFailed
  | Unknown (msg : String)
deriving DecidableEq, Repr

/-- Embeds `ManagerError` (src/manager.rs lines 8-14). -/
inductive ManagerError where
  | ProviderNotFound
  | Provider (e : ProviderError)
  | TokenRequestFailed
  | InstallationFailed
deriving DecidableEq, Repr

/-- Embeds the `From<ProviderError> for ManagerError` conversion applied by
the `?` operator in src/manager.rs (lines 16-20). -/
def liftProviderResult : Except ProviderError Unit → Except ManagerError Unit
  | Except.ok _ => Except.ok ()
  | Except.error e => Except.error (ManagerError.Provider e)

/-- Decidable equality for `Except` results, so that concrete outcomes can
be checked by evaluation. -/
instance {ε α : Type} [DecidableEq ε] [DecidableEq α] : DecidableEq (Except ε α) :=
  fun a b =>
    match a, b with
    | Except.error e1, Except.error e2 =>
      if h : e1 = e2 then Decidable.isTrue (by rw [h])
      else Decidable.isFalse (by intro hc; cases hc; exact h rfl)
    | Except.error _, Except.ok _ => Decidable.isFalse (by intro hc; cases hc)
    | Except.ok _, Except.error _ => Decidable.isFalse (by intro hc; cases hc)
    | Except.ok a1, Except.ok a2 =>
      if h : a1 = a2 then Decidable.isTrue (by rw [h])
      else Decidable.isFalse (by intro hc; cases hc; exact h rfl)

/-! ## Teardown scan (src/manager.rs lines 151-178)

For the teardown claims a provider is observed only through its `destroy`
behaviour, so the global provider registry `GLOBAL_PROVIDER` is modelled
as an association list from provider id to a destroy function
`runner_id → result`; `keys()` iteration is the list order. -/

/-- Model of one registered provider backend: its `destroy` result for each
runner id. -/
abbrev DestroyBehaviour := String → Except ProviderError Unit

/-- Model of `GLOBAL_PROVIDER` (src/provider/mod.rs lines 66-85): provider
ids mapped to backends, in iteration order. -/
abbrev ProviderMap := List (String × DestroyBehaviour)

/-- Embeds `get_provider` (src/provider/mod.rs lines 91-93): `HashMap::get`
on the registry, modelled as the first association-list entry with the
requested id (ids are unique in a `HashMap`). -/
def get_provider (providers : ProviderMap) (id : String) : Option DestroyBehaviour :=
  (providers.find? (fun p => p.1 == id)).map Prod.snd

/-- Embeds `destroy_runner` (src/manager.rs lines 168-178): look the
provider up; absent → `ProviderNotFound`; otherwise forward its `destroy`
result, lifting provider errors. -/
def destroy_runner (providers : ProviderMap) (provider_id runner_id : String) :
    Except ManagerError Unit :=
  match get_provider providers provider_id with
  | some destroy => liftProviderResult (destroy runner_id)
  | none => Except.error ManagerError.ProviderNotFound

/-- Embeds the `for provider_id in GLOBAL_PROVIDER.keys()` loop of
`destroy_runner_with_runner_id` (src/manager.rs lines 152-163). -/
def destroyLoop (providers : ProviderMap) (runner_id : String) :
    List String → Except ManagerError Unit
  | [] => Except.error (ManagerError.Provider ProviderError.RunnerNotFound)
  | provider_id :: rest =>
    match destroy_runner providers provider_id runner_id with
    | Except.ok _ => Except.ok ()
    | Except.error e =>
      if e ≠ ManagerError.Provider ProviderError.RunnerNotFound then Except.error e
      else destroyLoop providers runner_id rest

/-- Embeds `destroy_runner_with_runner_id` (src/manager.rs lines 151-166):
scan all registered providers in key order; after the loop the result is
`Provider(RunnerNotFound)`. -/
def destroy_runner_with_runner_id (providers : ProviderMap) (runner_id : String) :
    Except ManagerError Unit :=
  destroyLoop providers runner_id (providers.map Prod.fst)

/-- Modelled from the spec (teardown steps 2-4 of §4.3): the reference
scan over the per-provider destroy results — first success wins,
`RunnerNotFound` is skipped, any other error aborts, and exhaustion (in
particular an empty provider list) yields `Provider(RunnerNotFound)`. -/
def teardownScanSpec : List (Except ManagerError Unit) → Except ManagerError Unit
  | [] => Except.error (ManagerError.Provider ProviderError.RunnerNotFound)
  | Except.ok _ :: _ => Except.ok ()
  | Except.error e :: rest =>
    if e = ManagerError.Provider ProviderError.RunnerNotFound then teardownScanSpec rest
    else Except.error e

/-! ## Provisioning (src/manager.rs lines 27-149 and 180-211)

Provisioning drives an external backend (container create/start/run/stop/
destroy) and the forge's token endpoint.  Those effects are modelled by a
`RunnerEnv`: the token-request outcome, whether the image's provider id is
registered, the backend results of `create` and `start`, the result of the
i-th `run` invocation, and the (discarded) results of the cleanup calls.
The controller's observable behaviour is its returned result together
with the ordered trace of backend operations it attempted. -/

/-- Embeds `RunOptions` (src/provider/mod.rs lines 24-51); only `cwd`
varies in the controller (`env` and `wait` stay at their defaults), so a
run event records the argv and the cwd. -/
inductive Event where
  | create
  | start
  | stop
  | destroy
  | run (argv : List String) (cwd : String)
deriving DecidableEq, Repr

/-- Environment of one provisioning attempt: outcomes of every external
call `start_new_runner` may make, in the order the code can make them. -/
structure RunnerEnv where
  /-- Outcome of `request_new_repo_runner_token` (src/config.rs 44-70). -/
  tokenResult : Option String
  /-- Whether `get_provider(image_config.provider_id)` finds a backend. -/
  providerExists : Bool
  /-- Backend outcome of `provider.create` (src/manager.rs line 135). -/
  createResult : Except ProviderError Unit
  /-- Backend outcome of `runner.start()` (src/manager.rs line 137). -/
  startResult : Except ProviderError Unit
  /-- Backend outcome of the i-th `runner.run` call inside `setup_runner`. -/
  runRes : Nat → Except ProviderError Int
  /-- Discarded outcome of the cleanup `stop` (src/manager.rs line 204). -/
  stopResult : Except ProviderError Unit
  /-- Discarded outcome of the cleanup `destroy` (lines 139 and 205). -/
  destroyResult : Except ProviderError Unit

/-- Embeds the constant `RUNNER_DL_URL` (src/manager.rs line 25). -/
def RUNNER_DL_URL : String :=
  "https://github.com/actions/runner/releases/download/v2.283.3/actions-runner-linux-x64-2.283.3.tar.gz"

/-- Embeds the fourteen `runner.run` invocations of `setup_runner`
(src/manager.rs lines 46-124) as `(argv, cwd)` pairs, in program order:
the first eleven run with the default cwd `/`, the last three after
`options.cwd` is set to `/runner` (line 92).  The `--labels` value is the
string `octoling` with `,` and the label appended (lines 94-96). -/
def bootstrapSteps (label token repoUrl runnerId : String) :
    List (List String × String) :=
  [ (["apt-get", "update"], "/"),
    (["apt-get", "install", "-y", "curl", "tar", "gzip", "sudo"], "/"),
    (["curl", "https://get.docker.com/", "-o", "install_docker.sh"], "/"),
    (["sh", "install_docker.sh", "install", "runner"], "/"),
    (["curl", "-L", RUNNER_DL_URL, "-o", "runner.tar.gz"], "/"),
    (["useradd", "-m", "runner"], "/"),
    (["bash", "-c", "echo", "runner ALL=(ALL:ALL) NOPASSWD:ALL", ">>", "/etc/sudoers"], "/"),
    (["usermod", "-a", "-G", "docker", "runner"], "/"),
    (["mkdir", "/runner"], "/"),
    (["chown", "runner:runner", "/runner"], "/"),
    (["sudo", "-u", "runner", "tar", "xzf", "runner.tar.gz", "-C", "/runner"], "/"),
    (["sudo", "-u", "runner", "bash", "config.sh", "--unattended", "--ephemeral",
      "--url", repoUrl, "--token", token, "--name", runnerId,
      "--labels", "octoling," ++ label], "/runner"),
    (["bash", "svc.sh", "install", "runner"], "/runner"),
    (["bash", "svc.sh", "start"], "/runner") ]

/-- Embeds the chain of `ensure_success_error_code(runner.run(..)?)?`
calls (src/manager.rs lines 27-33 and 46-124): the i-th `run` whose
backend call fails propagates `Provider(e)`; a run returning a non-zero
exit code yields `InstallationFailed`; otherwise the next step runs.  The
trace records every `run` actually attempted. -/
def runSteps (env : RunnerEnv) :
    Nat → List (List String × String) → Except ManagerError Unit × List Event
  | _, [] => (Except.ok (), [])
  | i, step :: rest =>
    match env.runRes i with
    | Except.error e => (Except.error (ManagerError.Provider e), [Event.run step.1 step.2])
    | Except.ok code =>
      if code ≠ 0 then (Except.error ManagerError.InstallationFailed, [Event.run step.1 step.2])
      else
        let next := runSteps env (i + 1) rest
        (next.1, Event.run step.1 step.2 :: next.2)

/-- Embeds `setup_runner` (src/manager.rs lines 35-126). -/
def setup_runner (env : RunnerEnv) (label token repoUrl runnerId : String) :
    Except ManagerError Unit × List Event :=
  runSteps env 0 (bootstrapSteps label token repoUrl runnerId)

/-- Embeds `start_new_clean_runner` (src/manager.rs lines 128-149):
missing provider → `ProviderNotFound`; `create` failure propagates; a
`start` failure triggers a best-effort `destroy` whose result is
discarded (line 139) and the original start error is returned. -/
def start_new_clean_runner (env : RunnerEnv) :
    Except ManagerError Unit × List Event :=
  if env.providerExists then
    match env.createResult with
    | Except.error e => (Except.error (ManagerError.Provider e), [Event.create])
    | Except.ok _ =>
      match env.startResult with
      | Except.error e =>
        (Except.error (ManagerError.Provider e), [Event.create, Event.start, Event.destroy])
      | Except.ok _ => (Except.ok (), [Event.create, Event.start])
  else (Except.error ManagerError.ProviderNotFound, [])

/-- Embeds `start_new_runner` (src/manager.rs lines 180-211): request the
registration token first (failure → `TokenRequestFailed`, nothing else
attempted); then create and start the runner; then run the bootstrap
sequence, and on its failure perform best-effort `stop` then
`destroy` — both results discarded (lines 204-205; the destroy is only a
backend call when the provider id is registered) — returning the
bootstrap error.  The five-second settling sleep (line 195) has no
observable effect in this model. -/
def start_new_runner (env : RunnerEnv) (gc : GithubConfig) (label runnerId : String) :
    Except ManagerError Unit × List Event :=
  match env.tokenResult with
  | none => (Except.error ManagerError.TokenRequestFailed, [])
  | some token =>
    match start_new_clean_runner env with
    | (Except.error e, evs) => (Except.error e, evs)
    | (Except.ok _, evs) =>
      match setup_runner env label token gc.get_repo_url runnerId with
      | (Except.ok _, evs2) => (Except.ok (), evs ++ evs2)
      | (Except.error e, evs2) =>
        (Except.error e,
          evs ++ evs2 ++ Event.stop :: (if env.providerExists then [Event.destroy] else []))

/-- Modelled from the spec (§4.3 step 7 as amended): the expected result
of running `n` bootstrap steps starting at index `i` — the first step
whose backend call fails decides the run with that provider error, the
first step exiting non-zero decides it with `InstallationFailed`, and if
all steps exit zero the bootstrap succeeds. -/
def bootstrapSpecResult (env : RunnerEnv) : Nat → Nat → Except ManagerError Unit
  | _, 0 => Except.ok ()
  | i, n + 1 =>
    match env.runRes i with
    | Except.error e => Except.error (ManagerError.Provider e)
    | Except.ok code =>
      if code ≠ 0 then Except.error ManagerError.InstallationFailed
      else bootstrapSpecResult env (i + 1) n

/-- Selects the `run` events that carry the registration command, i.e.
whose argv mentions `config.sh`. -/
def isConfigRun : Event → Bool
  | Event.run argv _ => argv.contains "config.sh"
  | _ => false

/-- Registration-command events of a trace. -/
def configRuns (tr : List Event) : List Event :=
  tr.filter isConfigRun

/-! ## Webhook authentication (src/api/github.rs lines 80-81 and 187-225) -/

/-- Embeds the hex digit table used by `hex::FromHex`. -/
def hexDigitVal (c : Char) : Option Nat :=
  if '0' ≤ c ∧ c ≤ '9' then some (c.toNat - 48)
  else if 'a' ≤ c ∧ c ≤ 'f' then some (c.toNat - 87)
  else if 'A' ≤ c ∧ c ≤ 'F' then some (c.toNat - 55)
  else none

/-- Embeds `<[u8; 32]>::from_hex` on the 64-character suffix: consecutive
character pairs decode to bytes; any non-hex character (or odd length)
fails. -/
def hexDecode : List Char → Option (List Nat)
  | [] => some []
  | [_] => none
  | c1 :: c2 :: rest =>
    match hexDigitVal c1, hexDigitVal c2, hexDecode rest with
    | some hi, some lo, some bs => some ((hi * 16 + lo) :: bs)
    | _, _, _ => none

/-- Embeds Rust `str::starts_with` for the constant `sha256=` prefix: a
character-level prefix test, which agrees with the byte-level one because
UTF-8 is prefix-free and the constant is ASCII. -/
def strStartsWith (s p : String) : Bool :=
  p.data.isPrefixOf s.data

/-- Well-formed signature header: the digest obtained when the header has
byte length 71, the literal prefix `sha256=`, and a valid hex suffix
(src/api/github.rs lines 192-199). -/
def parseSignature (signature : String) : Option (List Nat) :=
  if signature.utf8ByteSize = 64 + 7 ∧ strStartsWith signature "sha256=" then
    hexDecode (signature.drop 7).data
  else none

/-- Outcome of the webhook handler's authentication phase.  `badRequest`
and `unauthorized` are the literal `400` and `401` replies; `panicked`
marks the `.unwrap()` on the hex decode aborting the handler;
`authenticated cfg` marks the request being accepted under account `cfg`,
after which the handler goes on to the body dispatch of
src/api/github.rs lines 211-220 (not relevant to the claims here). -/
inductive WebhookAuthResult where
  | badRequest
  | panicked
  | unauthorized
  | authenticated (cfg : GithubConfig)
deriving DecidableEq, Repr

/-- Embeds the `for github_config in GLOBAL_GITHUB_CONFIG.clone()` loop
(src/api/github.rs lines 202-222): the first account whose
`HMAC-SHA256(webhook_secret, body)` equals the provided digest
authenticates the request; exhaustion yields `401`. -/
def webhookAccountLoop (hmac : String → List Nat → List Nat) (body digest : List Nat) :
    List GithubConfig → WebhookAuthResult
  | [] => WebhookAuthResult.unauthorized
  | cfg :: rest =>
    if hmac cfg.webhook_secret body = digest then WebhookAuthResult.authenticated cfg
    else webhookAccountLoop hmac body digest rest

/-- Embeds the authentication phase of `webhook_handler`
(src/api/github.rs lines 187-225).  The HMAC-SHA256 primitive (an
external crate) is the parameter `hmac`, mapping a secret and the raw
body bytes to a 32-byte digest.  Wrong length or missing `sha256=` prefix
→ `400`; a non-hex suffix hits the `.unwrap()` on `from_hex` (line 199)
and panics; otherwise the account loop decides. -/
def webhook_handler (hmac : String → List Nat → List Nat)
    (accounts : List GithubConfig) (signature : String) (body : List Nat) :
    WebhookAuthResult :=
  if signature.utf8ByteSize ≠ 64 + 7 ∨ ¬ strStartsWith signature "sha256=" then
    WebhookAuthResult.badRequest
  else
    match hexDecode (signature.drop 7).data with
    | none => WebhookAuthResult.panicked
    | some digest => webhookAccountLoop hmac body digest accounts

/-! ## Queued-event handler (src/api/github.rs lines 83-139)

Only the event fields the handlers read are modelled. -/

/-- Embeds the fields of `User` read by the controller
(src/api/github.rs lines 16-34). -/
structure User where
  login : String
deriving DecidableEq, Repr

/-- Embeds the fields of `Repository` read by the controller
(src/api/github.rs lines 36-50). -/
structure Repository where
  name : String
  owner : User
deriving DecidableEq, Repr

/-- Embeds the fields of `WorkflowJob` read by the controller
(src/api/github.rs lines 52-71). -/
structure WorkflowJob where
  id : Nat
  status : String
  labels : List String
  runner_name : Option String
deriving DecidableEq, Repr

/-- Embeds the fields of `WorkflowJobEvent` read by the controller
(src/api/github.rs lines 73-78). -/
structure WorkflowJobEvent where
  repository : Repository
  workflow_job : WorkflowJob
deriving DecidableEq, Repr

/-- Embeds `get_runner_id_by_job_event` (src/api/github.rs lines 83-90). -/
def get_runner_id_by_job_event (event : WorkflowJobEvent) : String :=
  "octoling-" ++ event.repository.owner.login ++ "-" ++ event.repository.name
    ++ "-" ++ toString event.workflow_job.id

/-- Arguments of the one `start_new_runner` call the queued handler makes
(src/api/github.rs lines 117-123). -/
structure ProvisionCall where
  githubConfig : GithubConfig
  imageConfig : ImageConfig
  primaryLabel : String
  runnerId : String
deriving DecidableEq, Repr

/-- Outcome of `handle_workflow_job_queued`: no matching account or label
(`unhandled`, the "cannot be handled" log), the out-of-bounds
`image_config.labels[0]` index (`indexPanic`), or exactly one provisioning
attempt whose success flag is `ok` (the handler only logs it). -/
inductive QueuedOutcome where
  | unhandled
  | indexPanic
  | provisioned (call : ProvisionCall) (ok : Bool)
deriving DecidableEq, Repr

/-- Embeds the `for label in &event.workflow_job.labels` loop
(src/api/github.rs lines 111-135): the first label with a matching image
recipe triggers one `start_new_runner` call — with the recipe's first
label `image_config.labels[0]` (line 120, `indexPanic` when out of
bounds) and the deterministic runner id — and the loop returns regardless
of that call's result.  The provisioning itself is the abstract `provision`
parameter. -/
def queuedLabelLoop (provision : ProvisionCall → Bool) (ics : List ImageConfig)
    (gc : GithubConfig) (event : WorkflowJobEvent) :
    List String → QueuedOutcome
  | [] => QueuedOutcome.unhandled
  | label :: rest =>
    match get_image_config_by_label ics label with
    | none => queuedLabelLoop provision ics gc event rest
    | some ic =>
      match ic.labels with
      | [] => QueuedOutcome.indexPanic
      | l0 :: _ =>
        let call : ProvisionCall :=
          { githubConfig := gc, imageConfig := ic, primaryLabel := l0,
            runnerId := get_runner_id_by_job_event event }
        QueuedOutcome.provisioned call (provision call)

/-- Embeds `handle_workflow_job_queued` (src/api/github.rs lines
101-139): no configured account for the repository → unhandled, otherwise
the label loop. -/
def handle_workflow_job_queued (provision : ProvisionCall → Bool)
    (gcs : List GithubConfig) (ics : List ImageConfig)
    (event : WorkflowJobEvent) : QueuedOutcome :=
  match get_github_config_by_owner_and_repo gcs
      event.repository.owner.login event.repository.name with
  | none => QueuedOutcome.unhandled
  | some gc => queuedLabelLoop provision ics gc event event.workflow_job.labels

/-- Provision call recorded by a queued-event outcome, if any. -/
def QueuedOutcome.callOf : QueuedOutcome → Option ProvisionCall
  | QueuedOutcome.provisioned call _ => some call
  | _ => none

/-! ## LXC backend create (src/provider/lxc/mod.rs lines 84-109) -/

/-- Embeds Rust `str::split` on a single-character separator over the
characters of a string: every occurrence of the separator splits, empty
pieces included, and the result always holds at least one piece. -/
def splitChar (sep : Char) : List Char → List (List Char)
  | [] => [[]]
  | c :: rest =>
    let r := splitChar sep rest
    if c = sep then [] :: r
    else
      match r with
      | [] => [[c]]
      | s :: ss => (c :: s) :: ss

/-- Embeds `image_config.name.split(':')` followed by collection
(src/provider/lxc/mod.rs lines 87-90). -/
def stringSplit (s : String) (sep : Char) : List String :=
  (splitChar sep s.data).map String.mk

/-- Backend environment of one `LxcProvider::create` call: whether
`Container::new` succeeds, whether the container is already defined, and
whether the backend-level `container.create` succeeds. -/
structure LxcEnv where
  newOk : Bool
  isDefined : Bool
  createOk : Bool
deriving DecidableEq, Repr

/-- Embeds `LxcProvider::create` (src/provider/lxc/mod.rs lines 84-109).
The result is paired with the backend `container.create` invocation, if
one was made, as `(template, argv)`.  `image_config.name` is split on
`:`; the head is the template (Rust `split` always yields a first piece;
the `else` branch of line 102 is unreachable and modelled by the
impossible empty-split case); fewer than three remaining tokens →
`InvalidImage`; otherwise the backend is asked to create from the
template with the `--dist`, `--release` and `--arch` argv built from the
first three tokens,
and every fall-through returns `RunnerCreationFailed`. -/
def LxcProvider.create (env : LxcEnv) (imageName : String) :
    Except ProviderError Unit × Option (String × List String) :=
  if env.newOk ∧ ¬ env.isDefined then
    match stringSplit imageName ':' with
    | [] => (Except.error ProviderError.InvalidImage, none)
    | template :: args =>
      if args.length < 3 then (Except.error ProviderError.InvalidImage, none)
      else
        let argv := ["--dist", args.getD 0 "", "--release", args.getD 1 "",
                     "--arch", args.getD 2 ""]
        if env.createOk then (Except.ok (), some (template, argv))
        else (Except.error ProviderError.RunnerCreationFailed, some (template, argv))
  else (Except.error ProviderError.RunnerCreationFailed, none)

/-! ## Provider instantiation and the enabled flag (src/provider/mod.rs 66-85) -/

/-- Embeds the construction of `GLOBAL_PROVIDER` (src/provider/mod.rs
lines 66-85) on Linux: each configured provider entry is instantiated by
its `type` tag — `lxc` yields the LXC backend, anything else hits
`unimplemented!` (modelled as `none`) — and inserted under its `id`.  The
`enabled` field is never read. -/
def buildProviders : List ProviderConfig → Option (List (String × String))
  | [] => some []
  | pc :: rest =>
    if pc.provider_type = "lxc" then
      (buildProviders rest).map (fun tail => (pc.id, "lxc") :: tail)
    else none

/-- Projection of a github entry onto every field except `enabled`. -/
def GithubConfig.sansEnabled (c : GithubConfig) :
    String × String × String × String :=
  (c.owner, c.repository, c.api_token, c.webhook_secret)

/-- Projection of an image entry onto every field except `enabled`. -/
def ImageConfig.sansEnabled (c : ImageConfig) :
    String × String × String × List String :=
  (c.name, c.id, c.provider_id, c.labels)

/-- Projection of a provider entry onto every field except `enabled`. -/
def ProviderConfig.sansEnabled (c : ProviderConfig) :
    String × String × String :=
  (c.name, c.id, c.provider_type)

/-! ## Concrete fixtures used by witnesses and counterexamples -/

/-- Example forge account (spec §8 end-to-end scenario 1). -/
def gcAcme : GithubConfig :=
  { owner := "acme", repository := "widgets", api_token := "T",
    webhook_secret := "shh", enabled := true }

/-- Example image recipe (spec §8 end-to-end scenario 1). -/
def icImage : ImageConfig :=
  { name := "download:debian:bullseye:amd64", id := "img1",
    provider_id := "lxc1", enabled := true, labels := ["linux-x64", "fast"] }

/-- Example queued workflow-job event (spec §8 end-to-end scenario 1). -/
def eventQueued : WorkflowJobEvent :=
  { repository := { name := "widgets", owner := { login := "acme" } },
    workflow_job := { id := 42, status := "queued", labels := ["fast"], runner_name := none } }

/-- Environment of a fully successful provisioning run. -/
def envAllOk : RunnerEnv :=
  { tokenResult := some "tok", providerExists := true,
    createResult := Except.ok (), startResult := Except.ok (),
    runRes := fun _ => Except.ok 0,
    stopResult := Except.ok (), destroyResult := Except.ok () }

/-- Environment where `runner.start()` fails. -/
def envStartFail : RunnerEnv :=
  { envAllOk with startResult := Except.error ProviderError.RunnerStartFailed }

/-- Environment where the first bootstrap `run` call fails at the backend
level (`RunnerRunFailed`). -/
def envRunFail : RunnerEnv :=
  { envAllOk with runRes := fun _ => Except.error ProviderError.RunnerRunFailed }

/-- Environment where the fourth bootstrap step exits with code 1
(spec §8 end-to-end scenario 5). -/
def envExitFail : RunnerEnv :=
  { envAllOk with runRes := fun i => if i = 3 then Except.ok 1 else Except.ok 0 }

/-- Environment where the registration-token request fails
(spec §8 end-to-end scenario 6). -/
def envTokenFail : RunnerEnv :=
  { envAllOk with tokenResult := none }

/-- A provider whose destroy always reports `RunnerNotFound`. -/
def destroyNotFound : DestroyBehaviour := fun _ => Except.error ProviderError.RunnerNotFound

/-- A provider whose destroy always succeeds. -/
def destroyOk : DestroyBehaviour := fun _ => Except.ok ()

/-- Two providers where only the second owns the runner
(spec §8 end-to-end scenario 4). -/
def providersScan : ProviderMap := [("p1", destroyNotFound), ("p2", destroyOk)]

/-- A signature header with 64 zero hex characters. -/
def sigZeros : String :=
  "sha256=0000000000000000000000000000000000000000000000000000000000000000"

/-- A signature header whose 64-character suffix is not hexadecimal. -/
def sigNonHex : String :=
  "sha256=zzzzzzzzzzzzzzzzzzzzzzzzzzzzzzzzzzzzzzzzzzzzzzzzzzzzzzzzzzzzzzzz"

/-- The 32-byte digest of all zeros. -/
def digestZero : List Nat := List.replicate 32 0

/-- An HMAC model that returns the all-zero digest for every input. -/
def hmacConst : String → List Nat → List Nat := fun _ _ => digestZero

/-- An HMAC model that never returns the all-zero digest. -/
def hmacOther : String → List Nat → List Nat := fun _ _ => List.replicate 32 1

/-- The provision call issued for `eventQueued` under `gcAcme`/`icImage`. -/
def callAcme : ProvisionCall :=
  { githubConfig := gcAcme, imageConfig := icImage,
    primaryLabel := "linux-x64", runnerId := "octoling-acme-widgets-42" }

/-- A provisioning stub that always succeeds. -/
def provisionTrue : ProvisionCall → Bool := fun _ => true

/-- A provisioning stub that always fails. -/
def provisionFalse : ProvisionCall → Bool := fun _ => false

/-- Copy of `gcAcme` with `enabled := false`. -/
def gcAcmeOff : GithubConfig := { gcAcme with enabled := false }

/-- Copy of `icImage` with `enabled := false`. -/
def icImageOff : ImageConfig := { icImage with enabled := false }

/-- Example provider entry. -/
def pcLxc : ProviderConfig :=
  { name := "lxc runner", id := "lxc1", provider_type := "lxc", enabled := true }

/-- Copy of `pcLxc` with `enabled := false`. -/
def pcLxcOff : ProviderConfig := { pcLxc with enabled := false }

/-! ## Supporting lemmas -/

theorem destroyLoop_eq_spec (providers : ProviderMap) (runner_id : String)
    (keys : List String) :
    destroyLoop providers runner_id keys =
      teardownScanSpec (keys.map (fun pid => destroy_runner providers pid runner_id)) := by
  induction keys with
  | nil => rfl
  | cons pid rest ih =>
    cases h : destroy_runner providers pid runner_id with
    | ok u => cases u; simp [destroyLoop, teardownScanSpec, h]
    | error e =>
      by_cases he : e = ManagerError.Provider ProviderError.RunnerNotFound
      · subst he; simp [destroyLoop, teardownScanSpec, h, ih]
      · simp [destroyLoop, teardownScanSpec, h, he]

theorem get_provider_head (p : String × DestroyBehaviour) (rest : ProviderMap) :
    get_provider (p :: rest) p.1 = some p.2 := by
  simp [get_provider, List.find?]

theorem get_provider_cons_ne (p : String × DestroyBehaviour) (rest : ProviderMap)
    (id : String) (h : p.1 ≠ id) :
    get_provider (p :: rest) id = get_provider rest id := by
  have hb : (p.1 == id) = false := beq_eq_false_iff_ne.mpr h
  simp [get_provider, List.find?, hb]

theorem destroy_map_eq (providers : ProviderMap) (runner_id : String)
    (hnd : (providers.map Prod.fst).Nodup) :
    providers.map (fun p => destroy_runner providers p.1 runner_id)
      = providers.map (fun p => liftProviderResult (p.2 runner_id)) := by
  induction providers with
  | nil => rfl
  | cons p rest ih =>
    simp only [List.map_cons, List.nodup_cons, List.mem_map] at hnd
    obtain ⟨hp, hrest⟩ := hnd
    simp only [List.map_cons]
    congr 1
    · simp [destroy_runner, get_provider_head]
    · rw [List.map_congr_left, ih hrest]
      intro q hq
      have hne : p.1 ≠ q.1 := by
        intro hcontr
        exact hp ⟨q, hq, hcontr.symm⟩
      simp [destroy_runner, get_provider_cons_ne p rest q.1 hne]

/-! ## Claim theorems -/

/-- C1: the teardown scan `destroy_runner_with_runner_id` iterates the
configured providers and behaves exactly as the reference scan over their
individual destroy results: the first provider whose destroy succeeds
ends the scan with success, a provider returning `RunnerNotFound` is
skipped, any other provider error aborts the scan and is returned, and if
every provider (including the zero-provider case) returns
`RunnerNotFound` the result is `Provider(RunnerNotFound)`. -/
theorem teardown_scan_correct (providers : ProviderMap) (runner_id : String)
    (hnd : (providers.map Prod.fst).Nodup) :
    destroy_runner_with_runner_id providers runner_id =
      teardownScanSpec (providers.map (fun p => liftProviderResult (p.2 runner_id))) := by
  rw [destroy_runner_with_runner_id, destroyLoop_eq_spec, List.map_map]
  have : ((fun pid => destroy_runner providers pid runner_id) ∘ Prod.fst)
      = fun p : String × DestroyBehaviour => destroy_runner providers p.1 runner_id := rfl
  rw [this, destroy_map_eq providers runner_id hnd]

/-- C1 witness: two providers of which only the second owns the runner —
the first reports `RunnerNotFound` and is skipped, the second's success
ends the scan, matching the reference scan (which evaluates to success). -/
theorem teardown_scan_correct_witness :
    (providersScan.map Prod.fst).Nodup ∧
    destroy_runner_with_runner_id providersScan "octoling-acme-widgets-42" =
      teardownScanSpec (providersScan.map
        (fun p => liftProviderResult (p.2 "octoling-acme-widgets-42"))) ∧
    destroy_runner_with_runner_id providersScan "octoling-acme-widgets-42" = Except.ok () :=
  ⟨by decide, teardown_scan_correct providersScan "octoling-acme-widgets-42" (by decide), rfl⟩

/-- C4 (code-bug evidence): a signature header that is exactly `sha256=`
followed by 64 non-hexadecimal characters drives `webhook_handler` into
the `.unwrap()` on the hex decode, which panics instead of replying 400
as the spec requires. -/
theorem webhook_malformed_hex_panics :
    webhook_handler hmacConst [gcAcme] sigNonHex [1, 2, 3] = WebhookAuthResult.panicked := by
  decide

/-- C7: when the registration-token request fails, `start_new_runner`
returns `TokenRequestFailed` and its backend trace is empty — in
particular no `create` is attempted, so provider state is untouched. -/
theorem token_failure_atomic (env : RunnerEnv) (gc : GithubConfig)
    (label runnerId : String) (h : env.tokenResult = none) :
    start_new_runner env gc label runnerId
      = (Except.error ManagerError.TokenRequestFailed, []) := by
  simp [start_new_runner, h]

/-- C7 witness: the token-failure environment evaluated concretely —
the result is `TokenRequestFailed` with an empty backend trace. -/
theorem token_failure_atomic_witness :
    envTokenFail.tokenResult = none ∧
    start_new_runner envTokenFail gcAcme "linux-x64" "octoling-acme-widgets-42"
      = (Except.error ManagerError.TokenRequestFailed, []) :=
  ⟨rfl, token_failure_atomic envTokenFail gcAcme "linux-x64" "octoling-acme-widgets-42" rfl⟩

theorem webhookAccountLoop_eq_find (hmac : String → List Nat → List Nat)
    (body digest : List Nat) (accounts : List GithubConfig) :
    webhookAccountLoop hmac body digest accounts =
      Option.elim (accounts.find? (fun cfg => hmac cfg.webhook_secret body == digest))
        WebhookAuthResult.unauthorized WebhookAuthResult.authenticated := by
  induction accounts with
  | nil => rfl
  | cons cfg rest ih =>
    by_cases h : hmac cfg.webhook_secret body = digest
    · simp [webhookAccountLoop, List.find?, h]
    · have hb : (hmac cfg.webhook_secret body == digest) = false :=
        beq_eq_false_iff_ne.mpr h
      simp [webhookAccountLoop, List.find?, h, hb, ih]

/-- C3: for every request whose signature header is well formed (correct
length, `sha256=` prefix, valid hex digest), `webhook_handler`
authenticates the body exactly when some configured account's
`webhook_secret` yields an HMAC over the received body equal to the
presented digest — the first such account in iteration order is the one
selected (`List.find?`) — and when no account matches the reply is 401
(`unauthorized`).  The HMAC-SHA256 primitive, an external crate, is the
opaque parameter `hmac`. -/
theorem webhook_hmac_authentication (hmac : String → List Nat → List Nat)
    (accounts : List GithubConfig) (signature : String) (body digest : List Nat)
    (hsig : parseSignature signature = some digest) :
    webhook_handler hmac accounts signature body =
      Option.elim (accounts.find? (fun cfg => hmac cfg.webhook_secret body == digest))
        WebhookAuthResult.unauthorized WebhookAuthResult.authenticated := by
  unfold parseSignature at hsig
  split at hsig
  case isTrue h =>
    rw [webhook_handler, if_neg]
    · rw [hsig]
      exact webhookAccountLoop_eq_find hmac body digest accounts
    · push_neg
      exact ⟨h.1, h.2⟩
  case isFalse h =>
    cases hsig

/-- C3 witness: the all-zero digest header together with an HMAC model
returning the all-zero digest — the single configured account matches and
the handler authenticates as it; the same input evaluated concretely. -/
theorem webhook_hmac_authentication_witness :
    parseSignature sigZeros = some digestZero ∧
    webhook_handler hmacConst [gcAcme] sigZeros [1, 2, 3] =
      Option.elim (([gcAcme] : List GithubConfig).find?
          (fun cfg => hmacConst cfg.webhook_secret [1, 2, 3] == digestZero))
        WebhookAuthResult.unauthorized WebhookAuthResult.authenticated ∧
    webhook_handler hmacConst [gcAcme] sigZeros [1, 2, 3] =
      WebhookAuthResult.authenticated gcAcme :=
  ⟨by decide, webhook_hmac_authentication hmacConst [gcAcme] sigZeros [1, 2, 3]
      digestZero (by decide), by decide⟩

theorem runSteps_fst (env : RunnerEnv) (i : Nat) (steps : List (List String × String)) :
    (runSteps env i steps).1 = bootstrapSpecResult env i steps.length := by
  induction steps generalizing i with
  | nil => rfl
  | cons s rest ih =>
    simp only [runSteps, List.length_cons, bootstrapSpecResult]
    cases env.runRes i with
    | error e => rfl
    | ok code =>
      by_cases hc : code = 0
      · simp [hc, ih]
      · simp [hc]

theorem start_new_clean_runner_ok (env : RunnerEnv)
    (hprov : env.providerExists = true) (hcreate : env.createResult = Except.ok ())
    (hstart : env.startResult = Except.ok ()) :
    start_new_clean_runner env = (Except.ok (), [Event.create, Event.start]) := by
  simp [start_new_clean_runner, hprov, hcreate, hstart]

theorem start_new_clean_runner_startfail (env : RunnerEnv) (e : ProviderError)
    (hprov : env.providerExists = true) (hcreate : env.createResult = Except.ok ())
    (hstart : env.startResult = Except.error e) :
    start_new_clean_runner env =
      (Except.error (ManagerError.Provider e),
       [Event.create, Event.start, Event.destroy]) := by
  simp [start_new_clean_runner, hprov, hcreate, hstart]

/-- C2 counterexample: create and start succeed and the first bootstrap
`run` call fails at the backend level; the returned error is
`Provider(RunnerRunFailed)` — it is not `InstallationFailed`, and it is
not a start error either since `start` succeeded — contradicting the
claim that the returned error is the start error or `InstallationFailed`. -/
theorem provision_rollback_counterexample :
    (start_new_runner envRunFail gcAcme "linux-x64" "octoling-acme-widgets-42").1
        = Except.error (ManagerError.Provider ProviderError.RunnerRunFailed) ∧
    envRunFail.startResult = Except.ok () ∧
    (ManagerError.Provider ProviderError.RunnerRunFailed ≠ ManagerError.InstallationFailed) ∧
    Event.destroy ∈ (start_new_runner envRunFail gcAcme "linux-x64" "octoling-acme-widgets-42").2 :=
  ⟨rfl, rfl, by decide, by decide⟩

/-- C2 (amended): for every provisioning run in which the token request
and `provider.create` succeed and a later step fails, `provider.destroy`
appears in the backend trace (preceded by `handle.stop` in the
bootstrap-failure case), the cleanup results are discarded, and the
originating error is returned: the start error (as a `Provider` error)
when `handle.start` fails, and otherwise the bootstrap outcome — which is
`InstallationFailed` for a step exiting non-zero but the backend's own
`Provider` error for a `run` call that fails outright. -/
theorem provision_rollback (env : RunnerEnv) (gc : GithubConfig)
    (label runnerId : String)
    (htok : env.tokenResult.isSome)
    (hprov : env.providerExists = true)
    (hcreate : env.createResult = Except.ok ())
    (hfail : (start_new_runner env gc label runnerId).1 ≠ Except.ok ()) :
    Event.destroy ∈ (start_new_runner env gc label runnerId).2 ∧
    (env.startResult ≠ Except.ok () →
      (start_new_runner env gc label runnerId).1 = liftProviderResult env.startResult) ∧
    (env.startResult = Except.ok () →
      List.Sublist [Event.stop, Event.destroy] (start_new_runner env gc label runnerId).2 ∧
      (start_new_runner env gc label runnerId).1 = bootstrapSpecResult env 0 14) := by
  obtain ⟨token, htok'⟩ := Option.isSome_iff_exists.mp htok
  cases hstart : env.startResult with
  | error e =>
    have hclean := start_new_clean_runner_startfail env e hprov hcreate hstart
    simp only [start_new_runner, htok', hclean]
    refine ⟨by decide, fun _ => by simp [liftProviderResult, hstart],
      fun h => Except.noConfusion h⟩
  | ok u =>
    cases u
    have hclean := start_new_clean_runner_ok env hprov hcreate hstart
    rcases hsetup : setup_runner env label token gc.get_repo_url runnerId with ⟨res2, evs2⟩
    cases res2 with
    | ok u2 =>
      exfalso
      apply hfail
      simp only [start_new_runner, htok', hclean, hsetup]
    | error e2 =>
      have hif : (if env.providerExists then [Event.destroy] else ([] : List Event))
          = [Event.destroy] := by
        rw [hprov]
        simp
      have hres : Except.error e2 = bootstrapSpecResult env 0 14 := by
        have hlen : (bootstrapSteps label token gc.get_repo_url runnerId).length = 14 := rfl
        have h14 := runSteps_fst env 0 (bootstrapSteps label token gc.get_repo_url runnerId)
        rw [hlen] at h14
        have hs1 : (setup_runner env label token gc.get_repo_url runnerId).1
            = Except.error e2 := by rw [hsetup]
        rw [setup_runner] at hs1
        exact hs1.symm.trans h14
      simp only [start_new_runner, htok', hclean, hsetup, hif]
      refine ⟨by simp, fun h => absurd rfl h, fun _ => ⟨?_, hres⟩⟩
      have : ([Event.create, Event.start] ++ evs2) ++ [Event.stop, Event.destroy]
          = [Event.create, Event.start] ++ evs2 ++ [Event.stop, Event.destroy] := rfl
      rw [← this]
      exact List.sublist_append_right _ _

/-- C2 witness: the fourth bootstrap step exits with code 1 — the trace
carries `stop` then `destroy` after the attempted runs, and the result,
`bootstrapSpecResult` of the environment, is `InstallationFailed`. -/
theorem provision_rollback_witness :
    envExitFail.tokenResult.isSome ∧
    envExitFail.providerExists = true ∧
    envExitFail.createResult = Except.ok () ∧
    ((start_new_runner envExitFail gcAcme "linux-x64" "octoling-acme-widgets-42").1
        ≠ Except.ok ()) ∧
    Event.destroy ∈ (start_new_runner envExitFail gcAcme "linux-x64"
        "octoling-acme-widgets-42").2 ∧
    List.Sublist [Event.stop, Event.destroy]
      (start_new_runner envExitFail gcAcme "linux-x64" "octoling-acme-widgets-42").2 ∧
    (start_new_runner envExitFail gcAcme "linux-x64" "octoling-acme-widgets-42").1
        = bootstrapSpecResult envExitFail 0 14 ∧
    bootstrapSpecResult envExitFail 0 14 = Except.error ManagerError.InstallationFailed := by
  have h := provision_rollback envExitFail gcAcme "linux-x64" "octoling-acme-widgets-42"
    rfl rfl rfl (by decide)
  exact ⟨rfl, rfl, rfl, by decide, h.1, (h.2.2 rfl).1, (h.2.2 rfl).2, by decide⟩

theorem get_image_config_mem (ics : List ImageConfig) (l : String) (ic : ImageConfig)
    (h : get_image_config_by_label ics l = some ic) : l ∈ ic.labels := by
  induction ics with
  | nil => cases h
  | cons c rest ih =>
    by_cases hc : l ∈ c.labels
    · rw [get_image_config_by_label, if_pos hc] at h
      cases h
      exact hc
    · rw [get_image_config_by_label, if_neg hc] at h
      exact ih h

theorem get_image_eq_find (ics : List ImageConfig) (l : String) :
    get_image_config_by_label ics l = ics.find? (fun ic => decide (l ∈ ic.labels)) := by
  induction ics with
  | nil => rfl
  | cons c rest ih =>
    by_cases hc : l ∈ c.labels
    · simp [get_image_config_by_label, List.find?, hc]
    · simp [get_image_config_by_label, List.find?, hc, ih]

theorem queuedLabelLoop_callOf (p : ProvisionCall → Bool) (ics : List ImageConfig)
    (gc : GithubConfig) (event : WorkflowJobEvent) (labels : List String) :
    (queuedLabelLoop p ics gc event labels).callOf =
      Option.bind (labels.find? (fun l => (get_image_config_by_label ics l).isSome))
        (fun l => Option.map
          (fun ic => { githubConfig := gc, imageConfig := ic,
                       primaryLabel := ic.labels.headD "",
                       runnerId := get_runner_id_by_job_event event })
          (get_image_config_by_label ics l)) := by
  induction labels with
  | nil => rfl
  | cons l rest ih =>
    cases hg : get_image_config_by_label ics l with
    | none => simp [queuedLabelLoop, hg, List.find?, ih]
    | some ic =>
      have hmem := get_image_config_mem ics l ic hg
      cases hl : ic.labels with
      | nil =>
        rw [hl] at hmem
        cases hmem
      | cons l0 ls =>
        simp [queuedLabelLoop, hg, hl, List.find?, QueuedOutcome.callOf]

theorem queuedLabelLoop_no_panic (p : ProvisionCall → Bool) (ics : List ImageConfig)
    (gc : GithubConfig) (event : WorkflowJobEvent) (labels : List String) :
    queuedLabelLoop p ics gc event labels ≠ QueuedOutcome.indexPanic := by
  induction labels with
  | nil => intro h; cases h
  | cons l rest ih =>
    cases hg : get_image_config_by_label ics l with
    | none => simpa [queuedLabelLoop, hg] using ih
    | some ic =>
      have hmem := get_image_config_mem ics l ic hg
      cases hl : ic.labels with
      | nil =>
        rw [hl] at hmem
        cases hmem
      | cons l0 ls =>
        simp [queuedLabelLoop, hg, hl]

theorem queuedLabelLoop_provisioned (p : ProvisionCall → Bool) (ics : List ImageConfig)
    (gc : GithubConfig) (event : WorkflowJobEvent) (labels : List String)
    (c : ProvisionCall) (b : Bool)
    (h : queuedLabelLoop p ics gc event labels = QueuedOutcome.provisioned c b) :
    c.runnerId = get_runner_id_by_job_event event ∧
    c.primaryLabel = c.imageConfig.labels.headD "" := by
  induction labels with
  | nil => cases h
  | cons l rest ih =>
    cases hg : get_image_config_by_label ics l with
    | none =>
      rw [queuedLabelLoop, hg] at h
      exact ih h
    | some ic =>
      have hmem := get_image_config_mem ics l ic hg
      cases hl : ic.labels with
      | nil =>
        rw [hl] at hmem
        cases hmem
      | cons l0 ls =>
        simp only [queuedLabelLoop, hg, hl] at h
        cases h
        simp [hl]

/-- C5: for every queued event whose repository has a configured account,
the handler walks the event labels in order and the single provisioning
call it makes uses the recipe of the first label with a match —
`get_image_config_by_label` being exactly the first configured recipe
whose labels contain the query — with no call at all when no label
matches, and the call is independent of whether provisioning succeeds
(`p` versus `q`), so remaining event labels are never considered. -/
theorem label_selection (p q : ProvisionCall → Bool) (gcs : List GithubConfig)
    (ics : List ImageConfig) (event : WorkflowJobEvent) (gc : GithubConfig) (ql : String)
    (hacct : get_github_config_by_owner_and_repo gcs event.repository.owner.login
        event.repository.name = some gc) :
    get_image_config_by_label ics ql = ics.find? (fun ic => decide (ql ∈ ic.labels)) ∧
    (handle_workflow_job_queued p gcs ics event).callOf =
      Option.bind (event.workflow_job.labels.find?
          (fun l => (get_image_config_by_label ics l).isSome))
        (fun l => Option.map
          (fun ic => { githubConfig := gc, imageConfig := ic,
                       primaryLabel := ic.labels.headD "",
                       runnerId := get_runner_id_by_job_event event })
          (get_image_config_by_label ics l)) ∧
    (handle_workflow_job_queued p gcs ics event).callOf =
      (handle_workflow_job_queued q gcs ics event).callOf := by
  refine ⟨get_image_eq_find ics ql, ?_, ?_⟩
  · simp only [handle_workflow_job_queued, hacct]
    exact queuedLabelLoop_callOf p ics gc event event.workflow_job.labels
  · simp only [handle_workflow_job_queued, hacct]
    rw [queuedLabelLoop_callOf p ics gc event event.workflow_job.labels,
      queuedLabelLoop_callOf q ics gc event event.workflow_job.labels]

/-- C5 witness: the scenario-1 configuration — the event's only label
`fast` selects the recipe, the call record agrees with the reference
expression, and the call is the same whether provisioning fails or
succeeds; concretely the call is `callAcme`. -/
theorem label_selection_witness :
    get_github_config_by_owner_and_repo [gcAcme] eventQueued.repository.owner.login
      eventQueued.repository.name = some gcAcme ∧
    get_image_config_by_label [icImage] "fast"
      = ([icImage] : List ImageConfig).find? (fun ic => decide ("fast" ∈ ic.labels)) ∧
    (handle_workflow_job_queued provisionFalse [gcAcme] [icImage] eventQueued).callOf =
      Option.bind (eventQueued.workflow_job.labels.find?
          (fun l => (get_image_config_by_label [icImage] l).isSome))
        (fun l => Option.map
          (fun ic => { githubConfig := gcAcme, imageConfig := ic,
                       primaryLabel := ic.labels.headD "",
                       runnerId := get_runner_id_by_job_event eventQueued })
          (get_image_config_by_label [icImage] l)) ∧
    (handle_workflow_job_queued provisionFalse [gcAcme] [icImage] eventQueued).callOf =
      (handle_workflow_job_queued provisionTrue [gcAcme] [icImage] eventQueued).callOf ∧
    (handle_workflow_job_queued provisionFalse [gcAcme] [icImage] eventQueued).callOf =
      some callAcme := by
  have h := label_selection provisionFalse provisionTrue [gcAcme] [icImage] eventQueued
    gcAcme "fast" (by decide)
  exact ⟨by decide, h.1, h.2.1, h.2.2, by decide⟩

/-- C10: every `ImageConfig` returned by `get_image_config_by_label`
contains the queried label, hence its labels list is non-empty, and
therefore the queued-event handler's `image_config.labels[0]` index is
always in bounds: the handler can never reach the `indexPanic` outcome. -/
theorem primary_label_index_safe (ics : List ImageConfig) (l : String) (ic : ImageConfig)
    (p : ProvisionCall → Bool) (gcs : List GithubConfig) (event : WorkflowJobEvent)
    (h : get_image_config_by_label ics l = some ic) :
    l ∈ ic.labels ∧ ic.labels ≠ [] ∧
    handle_workflow_job_queued p gcs ics event ≠ QueuedOutcome.indexPanic := by
  have hmem := get_image_config_mem ics l ic h
  refine ⟨hmem, List.ne_nil_of_mem hmem, ?_⟩
  rw [handle_workflow_job_queued]
  cases get_github_config_by_owner_and_repo gcs event.repository.owner.login
      event.repository.name with
  | none => intro hc; cases hc
  | some gc => exact queuedLabelLoop_no_panic p ics gc event event.workflow_job.labels

/-- C10 witness: the scenario-1 recipe looked up by its second label —
the label is in the returned recipe's list, the list is non-empty, and
the handler does not panic on the concrete event. -/
theorem primary_label_index_safe_witness :
    get_image_config_by_label [icImage] "fast" = some icImage ∧
    ("fast" ∈ icImage.labels ∧ icImage.labels ≠ [] ∧
     handle_workflow_job_queued provisionTrue [gcAcme] [icImage] eventQueued
       ≠ QueuedOutcome.indexPanic) :=
  ⟨by decide, primary_label_index_safe [icImage] "fast" icImage provisionTrue [gcAcme]
      eventQueued (by decide)⟩

theorem runSteps_trace_ok (env : RunnerEnv) (i : Nat)
    (steps : List (List String × String))
    (h : (runSteps env i steps).1 = Except.ok ()) :
    (runSteps env i steps).2 = steps.map (fun s => Event.run s.1 s.2) := by
  induction steps generalizing i with
  | nil => rfl
  | cons s rest ih =>
    cases hr : env.runRes i with
    | error e =>
      rw [runSteps, hr] at h
      cases h
    | ok code =>
      by_cases hc : code = 0
      · rw [runSteps, hr] at h ⊢
        simp only [hc, if_neg (by simp : ¬ ((0 : Int) ≠ 0))] at h ⊢
        simp [ih i.succ h]
      · rw [runSteps, hr] at h
        simp only [if_pos hc] at h
        cases h

theorem configRuns_bootstrap (label token repoUrl runnerId : String) :
    configRuns ([Event.create, Event.start] ++
        (bootstrapSteps label token repoUrl runnerId).map (fun s => Event.run s.1 s.2)) =
      [Event.run
        ["sudo", "-u", "runner", "bash", "config.sh", "--unattended", "--ephemeral",
         "--url", repoUrl, "--token", token, "--name", runnerId,
         "--labels", "octoling," ++ label] "/runner"] := rfl

/-- C6: for every successful provision issued by the queued handler,
exactly one `config.sh` registration run appears in the backend trace,
carrying `--unattended --ephemeral`, `--name` equal to the deterministic
`octoling-<owner>-<repo>-<job_id>` string built from the event, and
`--labels` equal to `octoling,` followed by the selected recipe's first
label. -/
theorem registration_command (p : ProvisionCall → Bool) (gcs : List GithubConfig)
    (ics : List ImageConfig) (event : WorkflowJobEvent) (env : RunnerEnv)
    (c : ProvisionCall) (b : Bool) (token : String)
    (hc : handle_workflow_job_queued p gcs ics event = QueuedOutcome.provisioned c b)
    (htok : env.tokenResult = some token)
    (hok : (start_new_runner env c.githubConfig c.primaryLabel c.runnerId).1
        = Except.ok ()) :
    configRuns (start_new_runner env c.githubConfig c.primaryLabel c.runnerId).2 =
      [Event.run
        ["sudo", "-u", "runner", "bash", "config.sh", "--unattended", "--ephemeral",
         "--url", c.githubConfig.get_repo_url, "--token", token, "--name",
         "octoling-" ++ event.repository.owner.login ++ "-" ++ event.repository.name
           ++ "-" ++ toString event.workflow_job.id,
         "--labels", "octoling," ++ c.imageConfig.labels.headD ""] "/runner"] := by
  rw [handle_workflow_job_queued] at hc
  rcases hacct : get_github_config_by_owner_and_repo gcs event.repository.owner.login
      event.repository.name with _ | gc
  · rw [hacct] at hc
    cases hc
  rw [hacct] at hc
  obtain ⟨hrid, hlbl⟩ :=
    queuedLabelLoop_provisioned p ics gc event event.workflow_job.labels c b hc
  have hpe : env.providerExists = true := by
    by_contra hpe
    have hclean : start_new_clean_runner env
        = (Except.error ManagerError.ProviderNotFound, []) := by
      simp [start_new_clean_runner, hpe]
    rw [start_new_runner, htok, hclean] at hok
    cases hok
  have hcr : env.createResult = Except.ok () := by
    cases hcr : env.createResult with
    | ok u => cases u; rfl
    | error e =>
      have hclean : start_new_clean_runner env
          = (Except.error (ManagerError.Provider e), [Event.create]) := by
        simp [start_new_clean_runner, hpe, hcr]
      rw [start_new_runner, htok, hclean] at hok
      cases hok
  have hst : env.startResult = Except.ok () := by
    cases hst : env.startResult with
    | ok u => cases u; rfl
    | error e =>
      have hclean := start_new_clean_runner_startfail env e hpe hcr hst
      rw [start_new_runner, htok, hclean] at hok
      cases hok
  have hclean := start_new_clean_runner_ok env hpe hcr hst
  rcases hsetup : setup_runner env c.primaryLabel token c.githubConfig.get_repo_url
      c.runnerId with ⟨res2, evs2⟩
  cases res2 with
  | error e2 =>
    rw [start_new_runner, htok, hclean] at hok
    simp only [hsetup] at hok
    cases hok
  | ok u2 =>
    have hs1 : (runSteps env 0 (bootstrapSteps c.primaryLabel token
        c.githubConfig.get_repo_url c.runnerId)).1 = Except.ok () := by
      have : (setup_runner env c.primaryLabel token c.githubConfig.get_repo_url
          c.runnerId).1 = Except.ok u2 := by rw [hsetup]
      rw [setup_runner] at this
      cases u2
      exact this
    have htr := runSteps_trace_ok env 0
      (bootstrapSteps c.primaryLabel token c.githubConfig.get_repo_url c.runnerId) hs1
    have htr2 : evs2 = (bootstrapSteps c.primaryLabel token
        c.githubConfig.get_repo_url c.runnerId).map (fun s => Event.run s.1 s.2) := by
      have : (setup_runner env c.primaryLabel token c.githubConfig.get_repo_url
          c.runnerId).2 = evs2 := by rw [hsetup]
      rw [setup_runner, htr] at this
      exact this.symm
    rw [start_new_runner, htok, hclean]
    simp only [hsetup, htr2]
    rw [configRuns_bootstrap, hrid, hlbl, get_runner_id_by_job_event]

/-- C6 witness: the scenario-1 happy path evaluated concretely — the
handler issues `callAcme`, the run succeeds, and the trace carries
exactly one `config.sh` registration with the expected name and labels. -/
theorem registration_command_witness :
    handle_workflow_job_queued provisionTrue [gcAcme] [icImage] eventQueued
      = QueuedOutcome.provisioned callAcme true ∧
    envAllOk.tokenResult = some "tok" ∧
    (start_new_runner envAllOk callAcme.githubConfig callAcme.primaryLabel
        callAcme.runnerId).1 = Except.ok () ∧
    configRuns (start_new_runner envAllOk callAcme.githubConfig callAcme.primaryLabel
        callAcme.runnerId).2 =
      [Event.run
        ["sudo", "-u", "runner", "bash", "config.sh", "--unattended", "--ephemeral",
         "--url", callAcme.githubConfig.get_repo_url, "--token", "tok", "--name",
         "octoling-" ++ eventQueued.repository.owner.login ++ "-"
           ++ eventQueued.repository.name ++ "-"
           ++ toString eventQueued.workflow_job.id,
         "--labels", "octoling," ++ callAcme.imageConfig.labels.headD ""] "/runner"] :=
  ⟨by decide, rfl, rfl,
    registration_command provisionTrue [gcAcme] [icImage] eventQueued envAllOk
      callAcme true "tok" (by decide) rfl rfl⟩

/-- C8: for every `LxcProvider::create` call where the backend container
handle is obtained and the runner id is undefined, an image name that
splits on `:` into fewer than 4 tokens yields `InvalidImage` with no
backend container creation attempted, and one that splits into at least
4 tokens `[template, dist, release, arch, ...]` leads to a backend create
from `template` with argv exactly
`--dist <dist> --release <release> --arch <arch>`, extra tokens ignored. -/
theorem lxc_image_spec_parsing (env : LxcEnv) (imageName : String)
    (h1 : env.newOk = true) (h2 : env.isDefined = false) :
    ((stringSplit imageName ':').length < 4 →
      LxcProvider.create env imageName = (Except.error ProviderError.InvalidImage, none)) ∧
    (4 ≤ (stringSplit imageName ':').length →
      (LxcProvider.create env imageName).2 =
        some ((stringSplit imageName ':').headD "",
          ["--dist", (stringSplit imageName ':').getD 1 "",
           "--release", (stringSplit imageName ':').getD 2 "",
           "--arch", (stringSplit imageName ':').getD 3 ""])) := by
  constructor
  · intro hlt
    cases hsplit : stringSplit imageName ':' with
    | nil => simp [LxcProvider.create, h1, h2, hsplit]
    | cons template args =>
      rw [hsplit, List.length_cons] at hlt
      have h3 : args.length < 3 := by omega
      simp [LxcProvider.create, h1, h2, hsplit, h3]
  · intro hge
    cases hsplit : stringSplit imageName ':' with
    | nil =>
      rw [hsplit] at hge
      simp at hge
    | cons template args =>
      rw [hsplit, List.length_cons] at hge
      have h3 : ¬ args.length < 3 := by omega
      rcases args with _ | ⟨a1, args1⟩
      · simp at h3
      rcases args1 with _ | ⟨a2, args2⟩
      · exact absurd (by simp) h3
      rcases args2 with _ | ⟨a3, args3⟩
      · exact absurd (by simp) h3
      have h4 : ¬ args3.length + 1 + 1 + 1 < 3 := by omega
      cases henv : env.createOk <;>
        simp [LxcProvider.create, h1, h2, hsplit, henv, h4]

/-- C8 witness: the scenario-1 image name `download:debian:bullseye:amd64`
(4 tokens) on a fresh backend — the backend create is invoked with
template `download` and the dist, release and arch argv; and the 2-token
name `download:debian` yields `InvalidImage` with no backend call. -/
theorem lxc_image_spec_parsing_witness :
    ((stringSplit "download:debian:bullseye:amd64" ':').length = 4 ∧
      (LxcProvider.create ⟨true, false, true⟩ "download:debian:bullseye:amd64").2 =
        some ((stringSplit "download:debian:bullseye:amd64" ':').headD "",
          ["--dist", (stringSplit "download:debian:bullseye:amd64" ':').getD 1 "",
           "--release", (stringSplit "download:debian:bullseye:amd64" ':').getD 2 "",
           "--arch", (stringSplit "download:debian:bullseye:amd64" ':').getD 3 ""])) ∧
    ((stringSplit "download:debian" ':').length = 2 ∧
      LxcProvider.create ⟨true, false, true⟩ "download:debian" =
        (Except.error ProviderError.InvalidImage, none)) :=
  ⟨⟨by decide,
     (lxc_image_spec_parsing ⟨true, false, true⟩ "download:debian:bullseye:amd64"
       rfl rfl).2 (by decide)⟩,
   ⟨by decide,
     (lxc_image_spec_parsing ⟨true, false, true⟩ "download:debian"
       rfl rfl).1 (by decide)⟩⟩

theorem github_lookup_sans_enabled (gcs1 gcs2 : List GithubConfig) (owner repo : String)
    (hg : gcs1.map GithubConfig.sansEnabled = gcs2.map GithubConfig.sansEnabled) :
    (get_github_config_by_owner_and_repo gcs1 owner repo).map GithubConfig.sansEnabled
      = (get_github_config_by_owner_and_repo gcs2 owner repo).map GithubConfig.sansEnabled := by
  induction gcs1 generalizing gcs2 with
  | nil =>
    cases gcs2 with
    | nil => rfl
    | cons c2 t2 => cases hg
  | cons c1 t1 ih =>
    cases gcs2 with
    | nil => cases hg
    | cons c2 t2 =>
      simp only [List.map_cons, List.cons.injEq] at hg
      obtain ⟨hhead, htail⟩ := hg
      have ho : c1.owner = c2.owner := congrArg (fun x => x.1) hhead
      have hr : c1.repository = c2.repository := congrArg (fun x => x.2.1) hhead
      by_cases hmatch : c1.owner = owner ∧ c1.repository = repo
      · rw [get_github_config_by_owner_and_repo, if_pos hmatch,
          get_github_config_by_owner_and_repo,
          if_pos (show c2.owner = owner ∧ c2.repository = repo by
            rw [← ho, ← hr]; exact hmatch)]
        simpa using hhead
      · rw [get_github_config_by_owner_and_repo, if_neg hmatch,
          get_github_config_by_owner_and_repo,
          if_neg (show ¬ (c2.owner = owner ∧ c2.repository = repo) by
            rw [← ho, ← hr]; exact hmatch)]
        exact ih t2 htail

theorem image_lookup_sans_enabled (ics1 ics2 : List ImageConfig) (label : String)
    (hi : ics1.map ImageConfig.sansEnabled = ics2.map ImageConfig.sansEnabled) :
    (get_image_config_by_label ics1 label).map ImageConfig.sansEnabled
      = (get_image_config_by_label ics2 label).map ImageConfig.sansEnabled := by
  induction ics1 generalizing ics2 with
  | nil =>
    cases ics2 with
    | nil => rfl
    | cons c2 t2 => cases hi
  | cons c1 t1 ih =>
    cases ics2 with
    | nil => cases hi
    | cons c2 t2 =>
      simp only [List.map_cons, List.cons.injEq] at hi
      obtain ⟨hhead, htail⟩ := hi
      have hl : c1.labels = c2.labels := congrArg (fun x => x.2.2.2) hhead
      by_cases hmatch : label ∈ c1.labels
      · rw [get_image_config_by_label, if_pos hmatch,
          get_image_config_by_label,
          if_pos (show label ∈ c2.labels by rw [← hl]; exact hmatch)]
        simpa using hhead
      · rw [get_image_config_by_label, if_neg hmatch,
          get_image_config_by_label,
          if_neg (show ¬ label ∈ c2.labels by rw [← hl]; exact hmatch)]
        exact ih t2 htail

theorem buildProviders_sans_enabled (pcs1 pcs2 : List ProviderConfig)
    (hp : pcs1.map ProviderConfig.sansEnabled = pcs2.map ProviderConfig.sansEnabled) :
    buildProviders pcs1 = buildProviders pcs2 := by
  induction pcs1 generalizing pcs2 with
  | nil =>
    cases pcs2 with
    | nil => rfl
    | cons c2 t2 => cases hp
  | cons c1 t1 ih =>
    cases pcs2 with
    | nil => cases hp
    | cons c2 t2 =>
      simp only [List.map_cons, List.cons.injEq] at hp
      obtain ⟨hhead, htail⟩ := hp
      have hid : c1.id = c2.id := congrArg (fun x => x.2.1) hhead
      have hty : c1.provider_type = c2.provider_type := congrArg (fun x => x.2.2) hhead
      by_cases hlxc : c1.provider_type = "lxc"
      · rw [buildProviders, if_pos hlxc, buildProviders,
          if_pos (show c2.provider_type = "lxc" by rw [← hty]; exact hlxc),
          ih t2 htail, hid]
      · rw [buildProviders, if_neg hlxc, buildProviders,
          if_neg (show ¬ c2.provider_type = "lxc" by rw [← hty]; exact hlxc)]

/-- C9: the `enabled` field of every configuration entry is ignored — for
any two configurations whose github, image, or provider entry lists agree
on every field except `enabled`, the two lookups return the same results
(up to the carried `enabled` flag) and the same provider backends are
instantiated under the same ids; in particular entries with
`enabled = false` are still matched and used. -/
theorem enabled_flag_ignored (gcs1 gcs2 : List GithubConfig)
    (ics1 ics2 : List ImageConfig) (pcs1 pcs2 : List ProviderConfig)
    (owner repo label : String)
    (hg : gcs1.map GithubConfig.sansEnabled = gcs2.map GithubConfig.sansEnabled)
    (hi : ics1.map ImageConfig.sansEnabled = ics2.map ImageConfig.sansEnabled)
    (hp : pcs1.map ProviderConfig.sansEnabled = pcs2.map ProviderConfig.sansEnabled) :
    (get_github_config_by_owner_and_repo gcs1 owner repo).map GithubConfig.sansEnabled
      = (get_github_config_by_owner_and_repo gcs2 owner repo).map GithubConfig.sansEnabled ∧
    (get_image_config_by_label ics1 label).map ImageConfig.sansEnabled
      = (get_image_config_by_label ics2 label).map ImageConfig.sansEnabled ∧
    buildProviders pcs1 = buildProviders pcs2 :=
  ⟨github_lookup_sans_enabled gcs1 gcs2 owner repo hg,
   image_lookup_sans_enabled ics1 ics2 label hi,
   buildProviders_sans_enabled pcs1 pcs2 hp⟩

/-- C9 witness: the scenario-1 configuration with every `enabled` flag
flipped to `false` — lookups still find the (disabled) entries and the
LXC backend is still instantiated; the concrete results are also
evaluated. -/
theorem enabled_flag_ignored_witness :
    ([gcAcme].map GithubConfig.sansEnabled = [gcAcmeOff].map GithubConfig.sansEnabled) ∧
    (([icImage].map ImageConfig.sansEnabled = [icImageOff].map ImageConfig.sansEnabled) ∧
     ([pcLxc].map ProviderConfig.sansEnabled = [pcLxcOff].map ProviderConfig.sansEnabled)) ∧
    ((get_github_config_by_owner_and_repo [gcAcme] "acme" "widgets").map
        GithubConfig.sansEnabled
      = (get_github_config_by_owner_and_repo [gcAcmeOff] "acme" "widgets").map
        GithubConfig.sansEnabled ∧
     (get_image_config_by_label [icImage] "fast").map ImageConfig.sansEnabled
      = (get_image_config_by_label [icImageOff] "fast").map ImageConfig.sansEnabled ∧
     buildProviders [pcLxc] = buildProviders [pcLxcOff]) ∧
    (get_github_config_by_owner_and_repo [gcAcmeOff] "acme" "widgets" = some gcAcmeOff ∧
     get_image_config_by_label [icImageOff] "fast" = some icImageOff ∧
     buildProviders [pcLxcOff] = some [("lxc1", "lxc")]) :=
  ⟨by decide, ⟨by decide, by decide⟩,
   enabled_flag_ignored [gcAcme] [gcAcmeOff] [icImage] [icImageOff] [pcLxc] [pcLxcOff]
     "acme" "widgets" "fast" (by decide) (by decide) (by decide),
   by decide, by decide, by decide⟩

end Octoling
